import Mathlib

/-!
Shallow embedding of the two scraper scripts of the repository
(src/toi_scraper.py and src/reddit_scraper_ready.py) and proofs of the
behavioural claims about their fetch / normalize / deduplicate / persist
pipeline.

Python strings are modelled as lists of characters (`PyStr`); Python's
substring test `n in h` is `containsSub`; `str.strip()` is `pyStrip`.
External effects (HTTP fetches, the PRAW client, wall-clock time, file
I/O) are threaded in as explicit parameters: a fetch is an
`Except String _` value describing the adapter's outcome, the wall clock
is a `PyStr` argument, and a file write attempt is an
`Except String Unit` argument.  A function that wraps its body in a
Python try/except returning a value is embedded as a total function into
`Except String _`, where a `.error` result would mean "an exception
propagated past the boundary".
-/

namespace Scrapers

abbrev PyStr := List Char

/-- Python substring test: does `needle` occur contiguously in `haystack`? -/
def containsSub (needle haystack : PyStr) : Bool :=
  haystack.tails.any (fun t => needle.isPrefixOf t)

/-- Python str.strip(): drop whitespace from both ends. -/
def pyStrip (s : PyStr) : PyStr :=
  ((s.dropWhile Char.isWhitespace).reverse.dropWhile Char.isWhitespace).reverse

/-! ## toi_scraper.py -/

/-- One anchor element found by BeautifulSoup: its href attribute, its text
content, and the src attribute of a nested img element when one exists. -/
structure Anchor where
  href : PyStr
  text : PyStr
  img : Option PyStr
deriving DecidableEq, Repr

/-- The article dictionary built at toi_scraper.py lines 69-76. -/
structure Article where
  title : PyStr
  url : PyStr
  image : PyStr
  category : PyStr
  source : PyStr
  scraped_at : PyStr
deriving DecidableEq, Repr

/-- toi_scraper.py line 46: absolutize the href. -/
def fullUrl (href : PyStr) : PyStr :=
  if "http".data.isPrefixOf href then href
  else "https://timesofindia.indiatimes.com".data ++ href

/-- toi_scraper.py lines 49-54: the image URL associated with the anchor. -/
def imgUrlOf (a : Anchor) : PyStr :=
  match a.img with
  | none => []
  | some src =>
    if ¬ src.isEmpty ∧ ¬ "http".data.isPrefixOf src then "https:".data ++ src
    else src

/-- toi_scraper.py lines 56-67: the elif chain classifying a URL. -/
def categoryOf (u : PyStr) : PyStr :=
  if containsSub "/india/".data u then "India News".data
  else if containsSub "/world/".data u then "World News".data
  else if containsSub "/sports/".data u then "Sports".data
  else if containsSub "/business/".data u then "Business".data
  else if containsSub "/entertainment/".data u then "Entertainment".data
  else "Other".data

/-- toi_scraper.py lines 45-76: the article record built from one anchor. -/
def mkArticle (now : PyStr) (a : Anchor) : Article :=
  let full_url := fullUrl a.href
  { title := pyStrip a.text
    url := full_url
    image := imgUrlOf a
    category := categoryOf full_url
    source := "Times of India".data
    scraped_at := now }

/-- toi_scraper.py lines 36-76: the loop over all anchors, keeping those whose
href contains 'articleshow' and whose stripped text is a meaningful title. -/
def articlesOf (now : PyStr) (anchors : List Anchor) : List Article :=
  anchors.filterMap (fun a =>
    if containsSub "articleshow".data a.href then
      let title := pyStrip a.text
      if ¬ title.isEmpty ∧ title.length > 15 then some (mkArticle now a)
      else none
    else none)

/-- toi_scraper.py lines 79-86: the deduplication loop, carrying the set of
already-seen URLs. -/
def dedupeAux (seen : List PyStr) : List Article → List Article
  | [] => []
  | a :: rest =>
    if a.url ∈ seen then dedupeAux seen rest
    else a :: dedupeAux (a.url :: seen) rest

/-- toi_scraper.py lines 78-86: remove duplicates based on URL. -/
def dedupe (b : List Article) : List Article := dedupeAux [] b

/-- toi_scraper.py lines 13-93: the whole scrape.  The adapter outcome (the
HTTP fetch plus HTML parse) is the `fetched` argument; both except branches
(lines 88-93) return the empty list. -/
def scrape_times_of_india (now : PyStr) (fetched : Except String (List Anchor)) :
    List Article :=
  match fetched with
  | .error _ => []
  | .ok anchors => dedupe (articlesOf now anchors)

/-- The fixed header row written at toi_scraper.py line 102. -/
def toiHeader : List PyStr :=
  ["Title".data, "URL".data, "Image_URL".data, "Category".data,
   "Source".data, "Scraped_At".data]

/-- toi_scraper.py lines 101-113: the rows written to the CSV file. -/
def toiCsvLines (articles : List Article) : List (List PyStr) :=
  toiHeader ::
    articles.map (fun a =>
      [a.title, a.url, a.image, a.category, a.source, a.scraped_at])

/-- toi_scraper.py lines 95-120: save_to_csv.  The `io` argument is the
outcome of the file open/write at the destination path; the except branch
(lines 118-120) converts any failure into the return value False.  The result
pairs the boolean return value with the file produced (`none` when no file
results; the state of a partially written file on failure is undefined in the
source and modelled as absent, no claim depends on it). -/
def toi_save_to_csv (articles : List Article) (io : Except String Unit) :
    Except String (Bool × Option (List (List PyStr))) :=
  match io with
  | .ok _ => .ok (true, some (toiCsvLines articles))
  | .error _ => .ok (false, none)

/-! ## reddit_scraper_ready.py -/

/-- Python `str(x.author) if x.author else '[deleted]'` (an absent author is
`none`). -/
def pyAuthor (a : Option PyStr) : PyStr :=
  match a with
  | none => "[deleted]".data
  | some s => s

/-- Python `x or ''` on an optional string field. -/
def pyOrEmpty (a : Option PyStr) : PyStr :=
  match a with
  | none => []
  | some s => s

/-- Python `s[:cap] if s else ''` on an optional unbounded text field: an
absent or empty text maps to the empty string, any other text to its
cap-length prefix-take. -/
def pyTruncOr (cap : Nat) (s : Option PyStr) : PyStr :=
  match s with
  | none => []
  | some t => if t.isEmpty then [] else t.take cap

/-- A PRAW submission as the scraper reads it: each field the normalizers at
lines 73-95, 189-202 and 244-256 access.  `author`, `selftext`,
`link_flair_text` and `distinguished` are optional at the source. -/
structure Submission where
  id : PyStr
  title : PyStr
  author : Option PyStr
  subreddit_display_name : PyStr
  score : Int
  upvote_ratio : Float
  num_comments : Int
  created_utc : Int
  url : PyStr
  permalink : PyStr
  is_self : Bool
  selftext : Option PyStr
  link_flair_text : Option PyStr
  distinguished : Option PyStr
  stickied : Bool
  spoiler : Bool
  over_18 : Bool
  gilded : Int
  domain : PyStr

/-- The post dictionary of reddit_scraper_ready.py lines 73-95. -/
structure PostData where
  id : PyStr
  title : PyStr
  author : PyStr
  subreddit : PyStr
  score : Int
  upvote_ratio : Float
  num_comments : Int
  created_utc : Int
  created_datetime : PyStr
  url : PyStr
  permalink : PyStr
  is_self : Bool
  selftext : PyStr
  flair : PyStr
  distinguished : PyStr
  stickied : Bool
  spoiler : Bool
  nsfw : Bool
  gilded : Int
  domain : PyStr
  scraped_at : PyStr

/-- reddit_scraper_ready.py lines 70-95: normalize one submission into a post
dictionary.  `fmtTime` is the environment's timestamp formatting
(datetime.fromtimestamp + strftime), `now` the formatted wall-clock time of
normalization. -/
def normalizePost (fmtTime : Int → PyStr) (now : PyStr) (s : Submission) :
    PostData :=
  { id := s.id
    title := s.title
    author := pyAuthor s.author
    subreddit := s.subreddit_display_name
    score := s.score
    upvote_ratio := s.upvote_ratio
    num_comments := s.num_comments
    created_utc := s.created_utc
    created_datetime := fmtTime s.created_utc
    url := s.url
    permalink := "https://reddit.com".data ++ s.permalink
    is_self := s.is_self
    selftext := pyTruncOr 500 s.selftext
    flair := pyOrEmpty s.link_flair_text
    distinguished := pyOrEmpty s.distinguished
    stickied := s.stickied
    spoiler := s.spoiler
    nsfw := s.over_18
    gilded := s.gilded
    domain := s.domain
    scraped_at := now }

/-- The subreddit listings the sort dispatch at lines 55-66 can query. -/
structure Subreddit where
  hot : Nat → List Submission
  new : Nat → List Submission
  rising : Nat → List Submission
  top : Nat → PyStr → List Submission
  controversial : Nat → PyStr → List Submission

/-- reddit_scraper_ready.py lines 55-66: pick the listing for a sort_type;
any unrecognized sort_type falls through to the hot listing. -/
def selectSubmissions (sub : Subreddit) (sort_type : PyStr) (limit : Nat)
    (time_filter : PyStr) : List Submission :=
  if sort_type = "hot".data then sub.hot limit
  else if sort_type = "new".data then sub.new limit
  else if sort_type = "rising".data then sub.rising limit
  else if sort_type = "top".data then sub.top limit time_filter
  else if sort_type = "controversial".data then sub.controversial limit time_filter
  else sub.hot limit

/-- reddit_scraper_ready.py lines 36-106: get_subreddit_posts.  The `adapter`
argument is the outcome of `self.reddit.subreddit(...)` and its listings; the
except branch (lines 104-106) returns the empty list. -/
def get_subreddit_posts (fmtTime : Int → PyStr) (now : PyStr)
    (adapter : Except String Subreddit) (sort_type : PyStr) (limit : Nat)
    (time_filter : PyStr) : List PostData :=
  match adapter with
  | .error _ => []
  | .ok sub => (selectSubmissions sub sort_type limit time_filter).map
      (normalizePost fmtTime now)

/-- A raw PRAW comment with the fields lines 131-144 access. -/
structure RawComment where
  id : PyStr
  author : Option PyStr
  body : PyStr
  score : Int
  created_utc : Int
  is_submitter : Bool
  distinguished : Option PyStr
  gilded : Int
  permalink : PyStr

/-- An element of submission.comments: either a real comment (it has a body)
or another node such as MoreComments. -/
inductive CommentNode where
  | real (c : RawComment)
  | other

/-- The comment dictionary of reddit_scraper_ready.py lines 131-144. -/
structure CommentData where
  comment_id : PyStr
  post_id : PyStr
  author : PyStr
  body : PyStr
  score : Int
  created_utc : Int
  created_datetime : PyStr
  is_submitter : Bool
  distinguished : PyStr
  gilded : Int
  permalink : PyStr
  scraped_at : PyStr

/-- reddit_scraper_ready.py lines 129-144: normalize one comment. -/
def normalizeComment (fmtTime : Int → PyStr) (now : PyStr) (post_id : PyStr)
    (c : RawComment) : CommentData :=
  { comment_id := c.id
    post_id := post_id
    author := pyAuthor c.author
    body := c.body
    score := c.score
    created_utc := c.created_utc
    created_datetime := fmtTime c.created_utc
    is_submitter := c.is_submitter
    distinguished := pyOrEmpty c.distinguished
    gilded := c.gilded
    permalink := "https://reddit.com".data ++ c.permalink
    scraped_at := now }

/-- reddit_scraper_ready.py lines 108-154: get_post_comments.  The adapter is
the fetched comment forest (after replace_more); the loop takes the first
`limit` nodes and keeps those that have a body (lines 127-128); the except
branch (lines 152-154) returns the empty list. -/
def get_post_comments (fmtTime : Int → PyStr) (now : PyStr)
    (adapter : Except String (List CommentNode)) (post_id : PyStr)
    (limit : Nat) : List CommentData :=
  match adapter with
  | .error _ => []
  | .ok nodes => (nodes.take limit).filterMap (fun n =>
      match n with
      | .real c => some (normalizeComment fmtTime now post_id c)
      | .other => none)

/-- The search-result dictionary of reddit_scraper_ready.py lines 189-202. -/
structure SearchPostData where
  id : PyStr
  title : PyStr
  author : PyStr
  subreddit : PyStr
  score : Int
  num_comments : Int
  created_datetime : PyStr
  url : PyStr
  permalink : PyStr
  selftext : PyStr
  search_query : PyStr
  scraped_at : PyStr

/-- reddit_scraper_ready.py lines 186-202: normalize one search result. -/
def normalizeSearchPost (fmtTime : Int → PyStr) (now : PyStr) (query : PyStr)
    (s : Submission) : SearchPostData :=
  { id := s.id
    title := s.title
    author := pyAuthor s.author
    subreddit := s.subreddit_display_name
    score := s.score
    num_comments := s.num_comments
    created_datetime := fmtTime s.created_utc
    url := s.url
    permalink := "https://reddit.com".data ++ s.permalink
    selftext := pyTruncOr 300 s.selftext
    search_query := query
    scraped_at := now }

/-- reddit_scraper_ready.py lines 156-211: search_reddit.  The adapter is the
outcome of the search call (lines 174-183); the except branch (lines 209-211)
returns the empty list. -/
def search_reddit (fmtTime : Int → PyStr) (now : PyStr)
    (adapter : Except String (List Submission)) (query : PyStr) :
    List SearchPostData :=
  match adapter with
  | .error _ => []
  | .ok results => results.map (normalizeSearchPost fmtTime now query)

/-- The user-post dictionary of reddit_scraper_ready.py lines 244-256. -/
structure UserPostData where
  id : PyStr
  title : PyStr
  author : PyStr
  subreddit : PyStr
  score : Int
  num_comments : Int
  created_datetime : PyStr
  url : PyStr
  permalink : PyStr
  selftext : PyStr
  scraped_at : PyStr

/-- reddit_scraper_ready.py lines 242-256: normalize one user submission;
`author` is the username argument itself. -/
def normalizeUserPost (fmtTime : Int → PyStr) (now : PyStr) (username : PyStr)
    (s : Submission) : UserPostData :=
  { id := s.id
    title := s.title
    author := username
    subreddit := s.subreddit_display_name
    score := s.score
    num_comments := s.num_comments
    created_datetime := fmtTime s.created_utc
    url := s.url
    permalink := "https://reddit.com".data ++ s.permalink
    selftext := pyTruncOr 300 s.selftext
    scraped_at := now }

/-- The listings of user.submissions the dispatch at lines 229-238 can query
(the top/controversial calls pass no time filter in this function). -/
structure Redditor where
  hot : Nat → List Submission
  new : Nat → List Submission
  top : Nat → List Submission
  controversial : Nat → List Submission

/-- reddit_scraper_ready.py lines 229-238: pick the listing for a user sort;
any unrecognized sort falls through to the new listing. -/
def selectUserSubmissions (user : Redditor) (sort : PyStr) (limit : Nat) :
    List Submission :=
  if sort = "hot".data then user.hot limit
  else if sort = "new".data then user.new limit
  else if sort = "top".data then user.top limit
  else if sort = "controversial".data then user.controversial limit
  else user.new limit

/-- reddit_scraper_ready.py lines 213-265: get_user_posts.  The adapter is
the outcome of `self.reddit.redditor(...)` and its listings; the except
branch (lines 263-265) returns the empty list. -/
def get_user_posts (fmtTime : Int → PyStr) (now : PyStr)
    (adapter : Except String Redditor) (username : PyStr) (sort : PyStr)
    (limit : Nat) : List UserPostData :=
  match adapter with
  | .error _ => []
  | .ok user => (selectUserSubmissions user sort limit).map
      (normalizeUserPost fmtTime now username)

/-! ### The Reddit persistence writers

save_to_csv and save_to_json (lines 267-302) take a list of dictionaries.
A dictionary is modelled as an ordered association list from field name to
the textual representation of the value, which is exactly what determines
the CSV output; csv.DictWriter is modelled by `redditCsvLines`:
writeheader emits the first record's keys in insertion order, writerows
emits one row per record in list order, each row listing the record's
values in fieldname order. -/

abbrev PyDict := List (PyStr × PyStr)

/-- The key list of a dictionary, in insertion order. -/
def dictKeys (r : PyDict) : List PyStr := r.map Prod.fst

/-- Dictionary lookup (textual value of a field). -/
def dictGet (r : PyDict) (k : PyStr) : PyStr :=
  match r.find? (fun p => p.1 = k) with
  | none => []
  | some p => p.2

/-- csv.DictWriter with fieldnames = data[0].keys() (lines 274-278): header
row then one row per record, values in fieldname order. -/
def redditCsvLines (data : List PyDict) : List (List PyStr) :=
  match data with
  | [] => []
  | r0 :: _ => dictKeys r0 :: data.map (fun r => (dictKeys r0).map (dictGet r))

/-- reddit_scraper_ready.py lines 267-285: save_to_csv.  `if not data` (line
269) returns False before touching the file; otherwise the try writes the
file and returns True, and the except branch converts any failure into the
return value False.  Result as in `toi_save_to_csv`. -/
def save_to_csv (data : List PyDict) (io : Except String Unit) :
    Except String (Bool × Option (List (List PyStr))) :=
  if data.isEmpty then .ok (false, none)
  else
    match io with
    | .ok _ => .ok (true, some (redditCsvLines data))
    | .error _ => .ok (false, none)

/-- reddit_scraper_ready.py lines 287-302: save_to_json; the file content is
the full ordered sequence of records. -/
def save_to_json (data : List PyDict) (io : Except String Unit) :
    Except String (Bool × Option (List PyDict)) :=
  if data.isEmpty then .ok (false, none)
  else
    match io with
    | .ok _ => .ok (true, some data)
    | .error _ => .ok (false, none)

/-! ## Spec-side definitions (for refinement comparisons)

These follow the specification's words, to be compared with the
definitions embedded from the source. -/

/-- Spec-side description of deduplication: keep exactly the first Record for
each distinct NaturalKey (the record's URL) and drop every later Record whose
key was already seen. -/
def keepFirstByUrl : List Article → List Article
  | [] => []
  | a :: rest =>
    a :: keepFirstByUrl (rest.filter (fun x => decide (x.url ≠ a.url)))
termination_by l => l.length
decreasing_by
  simp only [List.length_cons]
  exact Nat.lt_succ_of_le (List.length_filter_le _ _)

/-- The field names of the article dictionary literal (toi_scraper.py lines
69-76), in insertion order: the key set of a TOI article Record. -/
def articleDictKeys : List PyStr :=
  ["title".data, "url".data, "image".data, "category".data,
   "source".data, "scraped_at".data]

/-- Did the embedded Python function return normally (no exception propagated
past its boundary)? -/
def isOkB {α : Type} : Except String α → Bool
  | .ok _ => true
  | .error _ => false

/-! ## Concrete demonstration inputs -/

def fmt0 : Int → PyStr := fun _ => []

/-- A submission whose selftext is 600 characters long. -/
def s0demo : Submission :=
  { id := "abc".data
    title := "t".data
    author := none
    subreddit_display_name := "pics".data
    score := 1
    upvote_ratio := 0.5
    num_comments := 2
    created_utc := 0
    url := "https://x".data
    permalink := "/r/pics/1".data
    is_self := true
    selftext := some (List.replicate 600 'a')
    link_flair_text := none
    distinguished := none
    stickied := false
    spoiler := false
    over_18 := false
    gilded := 0
    domain := "x".data }

/-- The same submission with the selftext absent. -/
def sEmptyDemo : Submission := { s0demo with selftext := none }

/-- An anchor whose absolutized URL contains both '/india/' and '/sports/'. -/
def a3demo : Anchor :=
  { href := "/india/sports/articleshow/123.cms".data
    text := "Some sufficiently long headline".data
    img := none }

/-- The article the scraper builds from `a3demo` (wall clock fixed to the
empty string). -/
def art3demo : Article :=
  { title := "Some sufficiently long headline".data
    url := "https://timesofindia.indiatimes.com/india/sports/articleshow/123.cms".data
    image := []
    category := "India News".data
    source := "Times of India".data
    scraped_at := [] }

/-- A plain article record for the writer demonstrations. -/
def artW : Article :=
  { title := "A headline".data
    url := "https://timesofindia.indiatimes.com/x/articleshow/9.cms".data
    image := []
    category := "Other".data
    source := "Times of India".data
    scraped_at := "2024-01-01 00:00:00".data }

/-- A one-field dictionary record for the writer demonstrations. -/
def dictDemo : PyDict := [("k".data, "v".data)]

/-- A subreddit adapter with one hot submission. -/
def subDemo : Subreddit :=
  { hot := fun _ => [s0demo]
    new := fun _ => []
    rising := fun _ => []
    top := fun _ _ => []
    controversial := fun _ _ => [] }

/-- A redditor adapter with one new submission. -/
def userDemo : Redditor :=
  { hot := fun _ => []
    new := fun _ => [s0demo]
    top := fun _ => []
    controversial := fun _ => [] }

/-- An anchor whose URL contains '/sports/' and no other known segment. -/
def aSportsDemo : Anchor :=
  { href := "/sports/cricket/articleshow/5.cms".data
    text := "A cricket match report headline".data
    img := none }

/-- The article the scraper builds from `aSportsDemo`. -/
def artSportsDemo : Article :=
  { title := "A cricket match report headline".data
    url := "https://timesofindia.indiatimes.com/sports/cricket/articleshow/5.cms".data
    image := []
    category := "Sports".data
    source := "Times of India".data
    scraped_at := [] }

/-- An anchor whose URL contains none of the known path segments. -/
def aOtherDemo : Anchor :=
  { href := "/lifestyle/articleshow/7.cms".data
    text := "A lifestyle feature headline".data
    img := none }

/-- The article the scraper builds from `aOtherDemo`. -/
def artOtherDemo : Article :=
  { title := "A lifestyle feature headline".data
    url := "https://timesofindia.indiatimes.com/lifestyle/articleshow/7.cms".data
    image := []
    category := "Other".data
    source := "Times of India".data
    scraped_at := [] }

/-- An anchor linking an article by a relative href. -/
def a10rel : Anchor :=
  { href := "/x/articleshow/9.cms".data
    text := "Another lengthy headline".data
    img := none }

/-- An anchor linking the same article by its absolute href. -/
def a10abs : Anchor :=
  { href := "https://timesofindia.indiatimes.com/x/articleshow/9.cms".data
    text := "Another lengthy headline".data
    img := none }

/-- The single article the scraper keeps from `[a10rel, a10abs]`. -/
def art10demo : Article :=
  { title := "Another lengthy headline".data
    url := "https://timesofindia.indiatimes.com/x/articleshow/9.cms".data
    image := []
    category := "Other".data
    source := "Times of India".data
    scraped_at := [] }

/-! ## Helper lemmas about the deduplication loop -/

theorem dedupeAux_sublist (l : List Article) :
    ∀ seen : List PyStr, List.Sublist (dedupeAux seen l) l := by
  induction l with
  | nil => intro seen; simp [dedupeAux]
  | cons a rest ih =>
    intro seen
    simp only [dedupeAux]
    by_cases h : a.url ∈ seen
    · rw [if_pos h]
      exact (ih seen).cons a
    · rw [if_neg h]
      exact (ih (a.url :: seen)).cons₂ a

theorem dedupeAux_eq_keepFirst (l : List Article) :
    ∀ seen : List PyStr,
      dedupeAux seen l = keepFirstByUrl (l.filter (fun a => decide (a.url ∉ seen))) := by
  induction l with
  | nil => intro seen; simp [dedupeAux, keepFirstByUrl]
  | cons a rest ih =>
    intro seen
    simp only [dedupeAux, List.filter_cons]
    by_cases h : a.url ∈ seen
    · rw [if_pos h]
      have hd : decide (a.url ∉ seen) = false := by simp [h]
      rw [hd]
      simp only [Bool.false_eq_true, if_false]
      exact ih seen
    · rw [if_neg h]
      have hd : decide (a.url ∉ seen) = true := by simp [h]
      rw [hd]
      simp only [if_true]
      rw [keepFirstByUrl, ih (a.url :: seen), List.filter_filter]
      have hf : List.filter (fun x => decide (x.url ∉ a.url :: seen)) rest =
          List.filter (fun x => decide (x.url ≠ a.url) && decide (x.url ∉ seen)) rest := by
        apply List.filter_congr
        intro x _
        simp [List.mem_cons, not_or, Bool.decide_and]
      rw [hf]

theorem dedupeAux_urls_nodup (l : List Article) :
    ∀ seen : List PyStr,
      ((dedupeAux seen l).map Article.url).Nodup ∧
        ∀ a ∈ dedupeAux seen l, a.url ∉ seen := by
  induction l with
  | nil => intro seen; simp [dedupeAux]
  | cons a rest ih =>
    intro seen
    simp only [dedupeAux]
    by_cases h : a.url ∈ seen
    · rw [if_pos h]
      exact ih seen
    · rw [if_neg h]
      obtain ⟨hnd, hns⟩ := ih (a.url :: seen)
      refine ⟨?_, ?_⟩
      · simp only [List.map_cons, List.nodup_cons]
        refine ⟨?_, hnd⟩
        intro hmem
        obtain ⟨b, hb, hbe⟩ := List.mem_map.mp hmem
        exact hns b hb (by simp [hbe])
      · intro b hb
        rcases List.mem_cons.mp hb with rfl | hb2
        · exact h
        · exact fun hbs => hns b hb2 (List.mem_cons_of_mem _ hbs)

theorem dedupeAux_eq_self (l : List Article) :
    ∀ seen : List PyStr, (∀ a ∈ l, a.url ∉ seen) →
      (l.map Article.url).Nodup → dedupeAux seen l = l := by
  induction l with
  | nil => intro seen _ _; rfl
  | cons a rest ih =>
    intro seen hseen hnd
    simp only [List.map_cons, List.nodup_cons] at hnd
    simp only [dedupeAux]
    rw [if_neg (hseen a (List.mem_cons_self a rest))]
    congr 1
    apply ih (a.url :: seen) _ hnd.2
    intro b hb
    simp only [List.mem_cons, not_or]
    refine ⟨?_, hseen b (List.mem_cons_of_mem a hb)⟩
    intro hbe
    exact hnd.1 (hbe ▸ List.mem_map_of_mem Article.url hb)

theorem dedupe_eq_keepFirst (b : List Article) : dedupe b = keepFirstByUrl b := by
  rw [dedupe, dedupeAux_eq_keepFirst]
  congr 1
  simp

theorem dedupe_sublist (b : List Article) : List.Sublist (dedupe b) b :=
  dedupeAux_sublist b []

theorem dedupe_urls_nodup (b : List Article) :
    ((dedupe b).map Article.url).Nodup :=
  (dedupeAux_urls_nodup b []).1

/-! ## Helper lemmas about the HTML adapter -/

theorem mem_articlesOf {now : PyStr} {anchors : List Anchor} {r : Article}
    (h : r ∈ articlesOf now anchors) : ∃ a ∈ anchors, r = mkArticle now a := by
  rw [articlesOf, List.mem_filterMap] at h
  obtain ⟨a, ha, hfa⟩ := h
  refine ⟨a, ha, ?_⟩
  split at hfa
  · dsimp only at hfa
    split at hfa
    · exact (Option.some.inj hfa).symm
    · exact absurd hfa (by simp)
  · exact absurd hfa (by simp)

theorem mem_scrape_eq_mkArticle {now : PyStr}
    {fetched : Except String (List Anchor)} {r : Article}
    (h : r ∈ scrape_times_of_india now fetched) :
    ∃ a, r = mkArticle now a := by
  cases fetched with
  | error e => simp [scrape_times_of_india] at h
  | ok anchors =>
    rw [scrape_times_of_india] at h
    obtain ⟨a, _, ha⟩ := mem_articlesOf ((dedupe_sublist _).subset h)
    exact ⟨a, ha⟩

theorem mkArticle_category (now : PyStr) (a : Anchor) :
    (mkArticle now a).category = categoryOf (mkArticle now a).url := rfl

theorem categoryOf_sports (u : PyStr)
    (hs : containsSub "/sports/".data u = true)
    (hi : containsSub "/india/".data u = false)
    (hw : containsSub "/world/".data u = false) :
    categoryOf u = "Sports".data := by
  simp [categoryOf, hs, hi, hw]

theorem categoryOf_other (u : PyStr)
    (hi : containsSub "/india/".data u = false)
    (hw : containsSub "/world/".data u = false)
    (hs : containsSub "/sports/".data u = false)
    (hb : containsSub "/business/".data u = false)
    (he : containsSub "/entertainment/".data u = false) :
    categoryOf u = "Other".data := by
  simp [categoryOf, hi, hw, hs, hb, he]

theorem http_isPrefixOf_fullUrl (href : PyStr) :
    "http".data.isPrefixOf (fullUrl href) = true := by
  rw [fullUrl]
  split
  · next hp => exact hp
  · rfl

/-! ## Helper lemmas about the truncating normalizers -/

theorem pyTruncOr_long (cap : Nat) (t : PyStr) (h : cap ≤ t.length) :
    pyTruncOr cap (some t) = t.take cap ∧
      (pyTruncOr cap (some t)).length = cap ∧
      pyTruncOr cap (some t) ++ t.drop cap = t := by
  have he : pyTruncOr cap (some t) = t.take cap := by
    rw [pyTruncOr]
    split
    · next hemp =>
      rw [List.isEmpty_iff] at hemp
      subst hemp
      simp
    · rfl
  refine ⟨he, ?_, ?_⟩
  · rw [he, List.length_take]
    exact Nat.min_eq_left h
  · rw [he]
    exact List.take_append_drop cap t

/-! ## The claims -/

/-- C1 (amended): on an empty Batch the Reddit script's writers (save_to_csv
and save_to_json) return a failure outcome and produce no file, for every I/O
environment; the TOI script's save_to_csv instead returns success and writes
a header-only file when the I/O succeeds. -/
theorem c1_empty_batch_write (io : Except String Unit) :
    save_to_csv [] io = Except.ok (false, none) ∧
    save_to_json [] io = Except.ok (false, none) ∧
    toi_save_to_csv [] (Except.ok ()) = Except.ok (true, some [toiHeader]) :=
  ⟨rfl, rfl, rfl⟩

/-- C1 counterexample: calling the TOI writer on zero records with succeeding
I/O returns True (success) and produces a file holding the header row, not a
failure outcome with no file. -/
theorem c1_counterexample :
    toi_save_to_csv [] (Except.ok ()) = Except.ok (true, some [toiHeader]) ∧
    (true, some [toiHeader]) ≠ ((false, none) : Bool × Option (List (List PyStr))) :=
  ⟨rfl, by simp⟩

/-- C2 (amended): on a non-empty Batch the Reddit CSV writer derives the
header row from the first record's key list in key order and writes one data
row per record in batch order (values in fieldname order); the TOI CSV writer
writes the fixed header row Title/URL/Image_URL/Category/Source/Scraped_At
and one data row per record in batch order. -/
theorem c2_csv_rows (r0 : PyDict) (rest : List PyDict) (arts : List Article) :
    save_to_csv (r0 :: rest) (Except.ok ()) =
      Except.ok (true, some (dictKeys r0 ::
        (r0 :: rest).map (fun r => (dictKeys r0).map (dictGet r)))) ∧
    toi_save_to_csv arts (Except.ok ()) =
      Except.ok (true, some (toiHeader ::
        arts.map (fun a => [a.title, a.url, a.image, a.category, a.source,
          a.scraped_at]))) :=
  ⟨rfl, rfl⟩

/-- C2 counterexample: the TOI writer's header row is the fixed list
Title/URL/Image_URL/Category/Source/Scraped_At, which is not the key list of
the first record (the article dictionary's keys are
title/url/image/category/source/scraped_at). -/
theorem c2_counterexample :
    toi_save_to_csv [artW] (Except.ok ()) =
      Except.ok (true, some [toiHeader,
        [artW.title, artW.url, artW.image, artW.category, artW.source,
         artW.scraped_at]]) ∧
    toiHeader ≠ articleDictKeys :=
  ⟨rfl, by decide⟩

/-- C3 (amended): for every article record produced by the HTML adapter, if
its URL contains '/sports/' and contains neither '/india/' nor '/world/'
(which take priority in the elif chain) then its category is "Sports"; if
its URL contains none of the five known path segments then its category is
"Other". -/
theorem c3_category_classification (now : PyStr)
    (fetched : Except String (List Anchor)) (r : Article)
    (hr : r ∈ scrape_times_of_india now fetched) :
    (containsSub "/sports/".data r.url = true →
      containsSub "/india/".data r.url = false →
      containsSub "/world/".data r.url = false →
      r.category = "Sports".data) ∧
    (containsSub "/india/".data r.url = false →
      containsSub "/world/".data r.url = false →
      containsSub "/sports/".data r.url = false →
      containsSub "/business/".data r.url = false →
      containsSub "/entertainment/".data r.url = false →
      r.category = "Other".data) := by
  obtain ⟨a, rfl⟩ := mem_scrape_eq_mkArticle hr
  rw [mkArticle_category]
  exact ⟨fun hs hi hw => categoryOf_sports _ hs hi hw,
    fun hi hw hs hb he => categoryOf_other _ hi hw hs hb he⟩

/-- C3 witness: a record whose URL contains only '/sports/' classifies as
Sports and a record whose URL contains no known segment classifies as
Other. -/
theorem c3_witness :
    artSportsDemo.category = "Sports".data ∧
    artOtherDemo.category = "Other".data := by
  constructor
  · exact (c3_category_classification [] (Except.ok [aSportsDemo]) artSportsDemo
      (by decide)).1 (by decide) (by decide) (by decide)
  · exact (c3_category_classification [] (Except.ok [aOtherDemo]) artOtherDemo
      (by decide)).2 (by decide) (by decide) (by decide) (by decide) (by decide)

/-- C3 counterexample: an anchor whose absolutized URL contains both
'/india/' and '/sports/' yields a record whose category is "India News", not
"Sports", because the '/india/' branch of the elif chain fires first. -/
theorem c3_counterexample :
    scrape_times_of_india [] (Except.ok [a3demo]) = [art3demo] ∧
    containsSub "/sports/".data art3demo.url = true ∧
    art3demo.category ≠ "Sports".data := by decide

/-- C4: dedupe keeps exactly the first Record for each distinct URL and
drops every later Record whose URL was already seen (it equals the spec-side
first-occurrence filter), and its output is a sublist of its input, so the
relative order of retained Records equals their relative order in the
input. -/
theorem c4_dedupe_keeps_first (b : List Article) :
    dedupe b = keepFirstByUrl b ∧ List.Sublist (dedupe b) b :=
  ⟨dedupe_eq_keepFirst b, dedupe_sublist b⟩

/-- C5: deduplication is idempotent. -/
theorem c5_dedupe_idempotent (b : List Article) :
    dedupe (dedupe b) = dedupe b :=
  dedupeAux_eq_self (dedupe b) [] (fun a _ => List.not_mem_nil a.url)
    (dedupe_urls_nodup b)

/-- C6: a selftext of length at least the cap (500 for subreddit posts, 300
for search results and user posts) normalizes to exactly the cap-length
prefix of the original (prefix witnessed by reappending the dropped suffix);
an absent or empty selftext normalizes to the empty string. -/
theorem c6_truncation (fmtTime : Int → PyStr) (now query username : PyStr)
    (s : Submission) (t : PyStr) :
    (s.selftext = some t → 500 ≤ t.length →
      (normalizePost fmtTime now s).selftext = t.take 500 ∧
      ((normalizePost fmtTime now s).selftext).length = 500 ∧
      (normalizePost fmtTime now s).selftext ++ t.drop 500 = t) ∧
    (s.selftext = some t → 300 ≤ t.length →
      ((normalizeSearchPost fmtTime now query s).selftext = t.take 300 ∧
       ((normalizeSearchPost fmtTime now query s).selftext).length = 300 ∧
       (normalizeSearchPost fmtTime now query s).selftext ++ t.drop 300 = t) ∧
      ((normalizeUserPost fmtTime now username s).selftext = t.take 300 ∧
       ((normalizeUserPost fmtTime now username s).selftext).length = 300 ∧
       (normalizeUserPost fmtTime now username s).selftext ++ t.drop 300 = t)) ∧
    (s.selftext = none ∨ s.selftext = some [] →
      (normalizePost fmtTime now s).selftext = [] ∧
      (normalizeSearchPost fmtTime now query s).selftext = [] ∧
      (normalizeUserPost fmtTime now username s).selftext = []) := by
  refine ⟨?_, ?_, ?_⟩
  · intro ht h
    rw [show (normalizePost fmtTime now s).selftext = pyTruncOr 500 s.selftext
      from rfl, ht]
    exact pyTruncOr_long 500 t h
  · intro ht h
    constructor
    · rw [show (normalizeSearchPost fmtTime now query s).selftext =
        pyTruncOr 300 s.selftext from rfl, ht]
      exact pyTruncOr_long 300 t h
    · rw [show (normalizeUserPost fmtTime now username s).selftext =
        pyTruncOr 300 s.selftext from rfl, ht]
      exact pyTruncOr_long 300 t h
  · intro ht
    rcases ht with ht | ht <;>
      simp [normalizePost, normalizeSearchPost, normalizeUserPost, ht, pyTruncOr]

/-- C6 witness: a 600-character selftext normalizes to its 500-character
prefix for a subreddit post, and an absent selftext normalizes to the empty
string. -/
theorem c6_witness :
    s0demo.selftext = some (List.replicate 600 'a') ∧
    500 ≤ (List.replicate 600 'a').length ∧
    (normalizePost fmt0 [] s0demo).selftext = (List.replicate 600 'a').take 500 ∧
    ((normalizePost fmt0 [] s0demo).selftext).length = 500 ∧
    sEmptyDemo.selftext = none ∧
    (normalizePost fmt0 [] sEmptyDemo).selftext = [] := by
  have hlen : 500 ≤ (List.replicate 600 'a').length := by
    rw [List.length_replicate]
    norm_num
  have h1 := (c6_truncation fmt0 [] [] [] s0demo (List.replicate 600 'a')).1
    rfl hlen
  have h2 := (c6_truncation fmt0 [] [] [] sEmptyDemo
    (List.replicate 600 'a')).2.2 (Or.inl rfl)
  exact ⟨rfl, hlen, h1.1, h1.2.1, rfl, h2.1⟩

/-- C7: for every Batch and I/O outcome at the destination path, each writer
returns normally (no exception propagates past its boundary), and every I/O
failure is converted into the boolean failure result False. -/
theorem c7_writer_never_raises (data : List PyDict) (arts : List Article)
    (io : Except String Unit) :
    isOkB (save_to_csv data io) = true ∧
    isOkB (save_to_json data io) = true ∧
    isOkB (toi_save_to_csv arts io) = true ∧
    (∀ e : String, io = Except.error e →
      save_to_csv data io = Except.ok (false, none) ∧
      save_to_json data io = Except.ok (false, none) ∧
      toi_save_to_csv arts io = Except.ok (false, none)) := by
  cases io with
  | ok u =>
    cases data <;> simp [save_to_csv, save_to_json, toi_save_to_csv, isOkB]
  | error e =>
    cases data <;> simp [save_to_csv, save_to_json, toi_save_to_csv, isOkB]

/-- C7 witness: with a failing I/O environment, each writer returns the
value False rather than an exception. -/
theorem c7_witness :
    save_to_csv [dictDemo] (Except.error "disk full") = Except.ok (false, none) ∧
    save_to_json [dictDemo] (Except.error "disk full") = Except.ok (false, none) ∧
    toi_save_to_csv [artW] (Except.error "disk full") = Except.ok (false, none) :=
  (c7_writer_never_raises [dictDemo] [artW] (Except.error "disk full")).2.2.2
    "disk full" rfl

/-- C8: when the Source Adapter fails, each fetch operation returns the
empty Batch instead of propagating the failure. -/
theorem c8_adapter_failure_empty (fmtTime : Int → PyStr)
    (now sort_type time_filter post_id query username sort : PyStr)
    (limit : Nat) (e : String) :
    get_subreddit_posts fmtTime now (Except.error e) sort_type limit time_filter = [] ∧
    get_post_comments fmtTime now (Except.error e) post_id limit = [] ∧
    search_reddit fmtTime now (Except.error e) query = [] ∧
    get_user_posts fmtTime now (Except.error e) username sort limit = [] ∧
    scrape_times_of_india now (Except.error e) = [] :=
  ⟨rfl, rfl, rfl, rfl, rfl⟩

/-- C9: a sort_type outside hot/new/rising/top/controversial makes
get_subreddit_posts behave exactly as sort_type = hot, and a sort outside
hot/new/top/controversial makes get_user_posts behave exactly as
sort = new. -/
theorem c9_unknown_sort_defaults (fmtTime : Int → PyStr) (now : PyStr)
    (adapter : Except String Subreddit) (uadapter : Except String Redditor)
    (username sort_type usort time_filter : PyStr) (limit : Nat)
    (h1 : sort_type ∉ ["hot".data, "new".data, "rising".data, "top".data,
      "controversial".data])
    (h2 : usort ∉ ["hot".data, "new".data, "top".data, "controversial".data]) :
    get_subreddit_posts fmtTime now adapter sort_type limit time_filter =
      get_subreddit_posts fmtTime now adapter "hot".data limit time_filter ∧
    get_user_posts fmtTime now uadapter username usort limit =
      get_user_posts fmtTime now uadapter username "new".data limit := by
  simp only [List.mem_cons, List.not_mem_nil, not_or, or_false] at h1 h2
  obtain ⟨n1, n2, n3, n4, n5⟩ := h1
  obtain ⟨m1, m2, m3, m4⟩ := h2
  constructor
  · cases adapter with
    | error e => rfl
    | ok sub =>
      have hsel : selectSubmissions sub sort_type limit time_filter =
          sub.hot limit := by
        rw [selectSubmissions, if_neg n1, if_neg n2, if_neg n3, if_neg n4,
          if_neg n5]
      have hhot : selectSubmissions sub "hot".data limit time_filter =
          sub.hot limit := by
        rw [selectSubmissions, if_pos rfl]
      show (selectSubmissions sub sort_type limit time_filter).map
          (normalizePost fmtTime now) =
        (selectSubmissions sub "hot".data limit time_filter).map
          (normalizePost fmtTime now)
      rw [hsel, hhot]
  · cases uadapter with
    | error e => rfl
    | ok user =>
      have hsel : selectUserSubmissions user usort limit = user.new limit := by
        rw [selectUserSubmissions, if_neg m1, if_neg m2, if_neg m3, if_neg m4]
      have hnew : selectUserSubmissions user "new".data limit =
          user.new limit := by
        rw [selectUserSubmissions, if_neg (by decide), if_pos rfl]
      show (selectUserSubmissions user usort limit).map
          (normalizeUserPost fmtTime now username) =
        (selectUserSubmissions user "new".data limit).map
          (normalizeUserPost fmtTime now username)
      rw [hsel, hnew]

/-- C9 witness: the unrecognized sort 'weird' queries the hot listing for a
subreddit and the new listing for a user. -/
theorem c9_witness :
    get_subreddit_posts fmt0 [] (Except.ok subDemo) "weird".data 5 "all".data =
      get_subreddit_posts fmt0 [] (Except.ok subDemo) "hot".data 5 "all".data ∧
    get_user_posts fmt0 [] (Except.ok userDemo) "u".data "weird".data 5 =
      get_user_posts fmt0 [] (Except.ok userDemo) "u".data "new".data 5 :=
  c9_unknown_sort_defaults fmt0 [] (Except.ok subDemo) (Except.ok userDemo)
    "u".data "weird".data "weird".data "all".data 5 (by decide) (by decide)

/-- C10: every record the HTML adapter produces has a URL beginning with
'http'; the absolutized URLs of the output are pairwise distinct (the
deduplication operates on them, so one article linked relatively and
absolutely yields one record); an href already beginning with 'http' is kept
as-is, any other href is prefixed with the site base URL. -/
theorem c10_absolutized_urls (now : PyStr)
    (fetched : Except String (List Anchor)) (h : PyStr) :
    (∀ r ∈ scrape_times_of_india now fetched,
      "http".data.isPrefixOf r.url = true) ∧
    ((scrape_times_of_india now fetched).map Article.url).Nodup ∧
    ("http".data.isPrefixOf h = true → fullUrl h = h) ∧
    ("http".data.isPrefixOf h = false →
      fullUrl h = "https://timesofindia.indiatimes.com".data ++ h) := by
  refine ⟨?_, ?_, ?_, ?_⟩
  · intro r hr
    obtain ⟨a, rfl⟩ := mem_scrape_eq_mkArticle hr
    show "http".data.isPrefixOf (fullUrl a.href) = true
    exact http_isPrefixOf_fullUrl a.href
  · cases fetched with
    | error e => simp [scrape_times_of_india]
    | ok anchors => exact dedupe_urls_nodup _
  · intro hp
    rw [fullUrl, if_pos hp]
  · intro hp
    rw [fullUrl, if_neg (by simp [hp])]

/-- C10 witness: the article kept from one relative and one absolute link to
the same article has an http URL, the output URLs are distinct, and a
relative href is absolutized by prefixing the site base URL. -/
theorem c10_witness :
    "http".data.isPrefixOf art10demo.url = true ∧
    ((scrape_times_of_india [] (Except.ok [a10rel, a10abs])).map
      Article.url).Nodup ∧
    fullUrl "/x".data = "https://timesofindia.indiatimes.com".data ++ "/x".data := by
  refine ⟨?_, ?_, ?_⟩
  · exact (c10_absolutized_urls [] (Except.ok [a10rel, a10abs]) "/x".data).1
      art10demo (by decide)
  · exact (c10_absolutized_urls [] (Except.ok [a10rel, a10abs]) "/x".data).2.1
  · exact (c10_absolutized_urls [] (Except.ok [a10rel, a10abs]) "/x".data).2.2.2
      (by decide)

end Scrapers
